import Mathlib

/-!
Shallow embedding of the Copilot_frontend client: the API client module
(src/services/api.js) and the conversation controller (src/App.jsx).
Network transport is modelled explicitly: a call either rejects at fetch,
resolves but fails JSON parsing, or resolves with a status code and a
parsed body.  JavaScript string idioms (truthiness, trim, includes,
template interpolation of undefined) are modelled by small helpers.
-/

/-- Whitespace characters removed by JavaScript String.prototype.trim
(the subset relevant to this client). -/
def isJsWhitespace (c : Char) : Bool :=
  c == ' ' || c == '\t' || c == '\n' || c == '\r' || c == '\x0b' || c == '\x0c' || c == ' '

/-- Model of JavaScript String.prototype.trim. -/
def jsTrim (s : String) : String :=
  String.mk (((s.data.dropWhile isJsWhitespace).reverse.dropWhile isJsWhitespace).reverse)

/-- A JavaScript string is falsy exactly when it is empty. -/
def jsFalsyString (s : String) : Bool :=
  s == ""

/-- Model of `s \x7c\x7c d` for an optional string field: the default is taken
when the field is absent (undefined) or the empty string (both falsy). -/
def jsOr (s : Option String) (d : String) : String :=
  match s with
  | some v => if v == "" then d else v
  | none => d

/-- Template interpolation of a possibly absent string field:
undefined prints as "undefined". -/
def jsShowStr : Option String → String
  | some v => v
  | none => "undefined"

/-- Template interpolation of a possibly absent numeric field. -/
def jsShowNat : Option Nat → String
  | some n => toString n
  | none => "undefined"

/-- Whether the second list starts the first (character-level helper for
the JavaScript string predicates). -/
def listStarts : List Char → List Char → Bool
  | _, [] => true
  | [], _ :: _ => false
  | c :: cs, d :: ds => c == d && listStarts cs ds

/-- Whether `sub` occurs inside `l` (helper for String.prototype.includes). -/
def containsSub : List Char → List Char → Bool
  | [], sub => sub.isEmpty
  | c :: rest, sub => listStarts (c :: rest) sub || containsSub rest sub

/-- Model of JavaScript String.prototype.includes. -/
def strIncludes (s sub : String) : Bool :=
  containsSub s.data sub.data

/-- Model of JavaScript String.prototype.startsWith. -/
def jsStartsWith (s pre : String) : Bool :=
  listStarts s.data pre.data

/-- The outcome of one HTTP round trip as seen by the api.js client:
fetch may reject, response.json() may reject, or both succeed yielding
a status code and a parsed body. -/
inductive Transport (β : Type) where
  | netError (msg : String)
  | badJson (status : Nat) (msg : String)
  | response (status : Nat) (body : β)
deriving DecidableEq

/-- response.ok: status in the 2xx range. -/
def statusOk (status : Nat) : Bool :=
  200 ≤ status && status < 300

/-- One entry of the functionCalls array in a chat response body. -/
structure FunctionCall where
  name : String
deriving DecidableEq

/-- The tokenCounts object of a chat response body. -/
structure TokenCounts where
  prompt_tokens : Nat
  response_tokens : Nat
deriving DecidableEq

/-- Parsed JSON body of POST /api/chat, with the fields the client reads;
absent fields are `none`. -/
structure ChatBody where
  success : Bool
  error : Option String := none
  finalResponse : String := ""
  functionCalls : Option (List FunctionCall) := none
  tokenCounts : Option TokenCounts := none
  totalIterations : Option Nat := none
  repositoryInfo : Option String := none
deriving DecidableEq

/-- Parsed JSON body of POST /api/validate-directory. -/
structure DirBody where
  valid : Bool
  error : Option String := none
  type : Option String := none
  fileCount : Option Nat := none
  dirCount : Option Nat := none
  code_files : Option Nat := none
  total_files : Option Nat := none
deriving DecidableEq

/-- Parsed JSON body of POST /api/validate-repo. -/
structure RepoBody where
  valid : Bool
  error : Option String := none
  branch : Option String := none
  code_files : Option Nat := none
  total_files : Option Nat := none
  size_mb : Option Nat := none
  last_commit : Option String := none
deriving DecidableEq

/-- Result object of checkBackendHealth. -/
structure HealthResult where
  healthy : Bool
  data : Option String := none
  error : Option String := none
deriving DecidableEq

/-- Whether an api.js operation modelled as Except threw to its caller. -/
def isThrown {α : Type} : Except String α → Bool
  | Except.error _ => true
  | Except.ok _ => false

/-- sendPrompt from api.js: awaits fetch and response.json() (either
rejection is rethrown by the catch), then throws on a non-2xx status
using the body error field if truthy, else a status-derived message;
on a 2xx status the parsed body is returned. -/
def sendPrompt (t : Transport ChatBody) : Except String ChatBody :=
  match t with
  | Transport.netError m => Except.error m
  | Transport.badJson _ m => Except.error m
  | Transport.response status body =>
    if statusOk status then Except.ok body
    else Except.error (jsOr body.error ("HTTP error! status: " ++ toString status))

/-- validateDirectory from api.js: returns the parsed body unchanged when
fetch and json succeed (the status is never consulted); a thrown error is
caught and mapped to a valid:false object carrying the error message. -/
def validateDirectory (t : Transport DirBody) : DirBody :=
  match t with
  | Transport.netError m => { valid := false, error := some m }
  | Transport.badJson _ m => { valid := false, error := some m }
  | Transport.response _ body => body

/-- validateRepository from api.js: same shape as validateDirectory. -/
def validateRepository (t : Transport RepoBody) : RepoBody :=
  match t with
  | Transport.netError m => { valid := false, error := some m }
  | Transport.badJson _ m => { valid := false, error := some m }
  | Transport.response _ body => body

/-- checkBackendHealth from api.js: healthy mirrors response.ok; any
thrown error is caught and mapped to healthy:false with the message. -/
def checkBackendHealth (t : Transport String) : HealthResult :=
  match t with
  | Transport.netError m => { healthy := false, error := some m }
  | Transport.badJson _ m => { healthy := false, error := some m }
  | Transport.response status body => { healthy := statusOk status, data := some body }

/-- Message roles used by App.jsx. -/
inductive MsgType where
  | user
  | ai
  | error
  | system
deriving DecidableEq

/-- A chat message as built by App.jsx; fields absent on user, error and
system messages carry their defaults. -/
structure Message where
  id : Nat
  type : MsgType
  content : String
  timestamp : String
  functionCalls : List String := []
  tokenCount : Option TokenCounts := none
  iterations : Option Nat := none
  repositoryInfo : Option String := none
deriving DecidableEq

/-- The React state of the App component (the conversation controller). -/
structure AppState where
  messages : List Message
  inputMessage : String
  verboseMode : Bool
  isTyping : Bool
  workingDirectory : String
  backendHealthy : Bool
  backendChecking : Bool
  error : Option String
deriving DecidableEq

/-- A request dispatched to the backend by a controller transition. -/
inductive ApiCall where
  | chat (prompt : String) (workingDirectory : String) (verbose : Bool)
  | validateDir (directory : String)
  | validateRepo (repoUrl : String)
  | health
deriving DecidableEq

/-- The seeded greeting message of the initial state. -/
def initialGreeting (ts : String) : Message :=
  { id := 1, type := MsgType.ai,
    content := "Hello! I\x27m your AI Coding Buddy. I can analyze your codebase, understand project structure, and help with development tasks. Just provide a local directory path or Git repository URL!",
    timestamp := ts }

/-- The initial React state of App.jsx (useState initialisers). -/
def initState (ts : String) : AppState :=
  { messages := [initialGreeting ts], inputMessage := "", verboseMode := false,
    isTyping := false, workingDirectory := "https://github.com/microsoft/calculator",
    backendHealthy := false, backendChecking := true, error := none }

/-- handleSendMessage from App.jsx, as a pure transition: given the
transport outcome of the chat request and the Date.now()/timestamp values
sampled when each message is built, it returns the new state and the
list of backend requests dispatched. -/
def handleSendMessage (s : AppState) (t : Transport ChatBody)
    (now1 now2 : Nat) (ts1 ts2 : String) : AppState × List ApiCall :=
  if jsFalsyString (jsTrim s.inputMessage) || s.isTyping then (s, [])
  else
    let userMessage : Message :=
      { id := now1, type := MsgType.user, content := s.inputMessage, timestamp := ts1 }
    let currentPrompt := s.inputMessage
    let s1 : AppState :=
      { s with error := none, messages := s.messages ++ [userMessage],
               inputMessage := "", isTyping := true }
    let dispatched := [ApiCall.chat currentPrompt s.workingDirectory s.verboseMode]
    let s2 : AppState :=
      match sendPrompt t with
      | Except.ok response =>
        if response.success then
          let aiMessage : Message :=
            { id := now2 + 1, type := MsgType.ai, content := response.finalResponse,
              timestamp := ts2,
              functionCalls := (response.functionCalls.map (fun fcs => fcs.map FunctionCall.name)).getD [],
              tokenCount := response.tokenCounts, iterations := response.totalIterations,
              repositoryInfo := response.repositoryInfo }
          { s1 with messages := s1.messages ++ [aiMessage] }
        else
          let errorMessage : Message :=
            { id := now2 + 1, type := MsgType.error,
              content := "Error: " ++ jsOr response.error "Unknown error occurred",
              timestamp := ts2 }
          { s1 with messages := s1.messages ++ [errorMessage] }
      | Except.error emsg =>
        let errorMessage : Message :=
          { id := now2 + 1, type := MsgType.error,
            content := "Failed to process request: " ++ emsg, timestamp := ts2 }
        { s1 with messages := s1.messages ++ [errorMessage], error := some emsg }
    ({ s2 with isTyping := false }, dispatched)

/-- The Git-URL classification of handleDirectoryChange (App.jsx line 118). -/
def isGitUrl (newPath : String) : Bool :=
  strIncludes newPath "github.com" || strIncludes newPath "gitlab.com" ||
  strIncludes newPath ".git" || jsStartsWith newPath "https://" ||
  jsStartsWith newPath "http://"

/-- Confirmation text appended after a successful repository validation. -/
def gitConfirmContent (newPath : String) (v : RepoBody) : String :=
  "✅ Git repository connected: " ++ newPath ++
  "\n🔗 Branch: " ++ jsOr v.branch "main" ++
  "\n📊 " ++ toString (v.code_files.getD 0) ++ " code files, " ++
  toString (v.total_files.getD 0) ++ " total files (" ++
  toString (v.size_mb.getD 0) ++ "MB)\n📝 Last commit: " ++
  jsOr v.last_commit "Unknown"

/-- Confirmation text appended after a successful directory validation. -/
def dirConfirmContent (newPath : String) (v : DirBody) : String :=
  if v.type == some "git_repository" then
    "✅ Git repository connected: " ++ newPath ++
    "\n📊 " ++ toString (v.code_files.getD 0) ++ " code files, " ++
    toString (v.total_files.getD 0) ++ " total files"
  else
    "✅ Working directory changed to: " ++ newPath ++
    "\n📁 " ++ jsShowNat v.fileCount ++ " files, " ++
    jsShowNat v.dirCount ++ " directories found"

/-- handleDirectoryChange from App.jsx, as a pure transition: newPath is
the prompt() result (None models cancel), the two transports give the
outcome of whichever validation request would be dispatched, and now/ts
are the sampled Date.now() and timestamp values. -/
def handleDirectoryChange (s : AppState) (newPath : Option String)
    (tRepo : Transport RepoBody) (tDir : Transport DirBody)
    (now : Nat) (ts : String) : AppState × List ApiCall :=
  match newPath with
  | none => (s, [])
  | some p =>
    if jsFalsyString p then (s, [])
    else
      let s1 : AppState := { s with isTyping := true }
      let res :=
        if isGitUrl p then
          let validation := validateRepository tRepo
          if validation.valid then
            let confirmMessage : Message :=
              { id := now, type := MsgType.system,
                content := gitConfirmContent p validation, timestamp := ts }
            ({ s1 with workingDirectory := p, error := none,
                       messages := s1.messages ++ [confirmMessage] },
             [ApiCall.validateRepo p])
          else
            let errorMessage : Message :=
              { id := now, type := MsgType.error,
                content := "❌ Git repository validation failed: " ++ jsShowStr validation.error,
                timestamp := ts }
            ({ s1 with error := some ("Repository validation failed: " ++ jsShowStr validation.error),
                       messages := s1.messages ++ [errorMessage] },
             [ApiCall.validateRepo p])
        else
          let validation := validateDirectory tDir
          if validation.valid then
            let confirmMessage : Message :=
              { id := now, type := MsgType.system,
                content := dirConfirmContent p validation, timestamp := ts }
            ({ s1 with workingDirectory := p, error := none,
                       messages := s1.messages ++ [confirmMessage] },
             [ApiCall.validateDir p])
          else
            let errorMessage : Message :=
              { id := now, type := MsgType.error,
                content := "❌ Directory validation failed: " ++ jsShowStr validation.error,
                timestamp := ts }
            ({ s1 with error := some ("Invalid directory: " ++ jsShowStr validation.error),
                       messages := s1.messages ++ [errorMessage] },
             [ApiCall.validateDir p])
      ({ res.1 with isTyping := false }, res.2)

/-- The checkHealth closure of the mount effect in App.jsx: refresh the
health flags and set the fixed unavailable message when unhealthy. -/
def checkHealth (s : AppState) (t : Transport String) : AppState :=
  let health := checkBackendHealth t
  let s1 : AppState := { s with backendHealthy := health.healthy, backendChecking := false }
  if !health.healthy then
    { s1 with error := some "Backend is not available. Please start the Flask server." }
  else s1

/-- clearError from App.jsx. -/
def clearError (s : AppState) : AppState :=
  { s with error := none }

/-- Classification of a change-target value, modelled from the spec
wording: a Git reference iff it contains github.com, gitlab.com, or
.git, or starts with http:// or https://. -/
def specIsGitRef (v : String) : Bool :=
  strIncludes v "github.com" || strIncludes v "gitlab.com" ||
  strIncludes v ".git" || jsStartsWith v "http://" ||
  jsStartsWith v "https://"

/-- A successful chat response body used in concrete runs. -/
def chatOkBody : ChatBody :=
  { success := true, finalResponse := "Here is my analysis.",
    functionCalls := some [{ name := "get_file" }, { name := "read_file" }],
    tokenCounts := some { prompt_tokens := 45, response_tokens := 120 },
    totalIterations := some 2, repositoryInfo := some "calculator" }

/-- A value-level failure chat body carrying the error "boom". -/
def chatBoomBody : ChatBody :=
  { success := false, error := some "boom" }

/-- Transport delivering chatOkBody with a 200 status. -/
def tChatSuccess : Transport ChatBody :=
  Transport.response 200 chatOkBody

/-- Transport delivering chatBoomBody with a 200 status. -/
def tChatBoom : Transport ChatBody :=
  Transport.response 200 chatBoomBody

/-- Transport delivering a successful directory validation body. -/
def tDirOk : Transport DirBody :=
  Transport.response 200 { valid := true, fileCount := some 3, dirCount := some 1 }

/-- Transport delivering a successful repository validation body. -/
def tRepoOk : Transport RepoBody :=
  Transport.response 200 { valid := true, branch := some "main" }

/-- The initial state with a request already in flight. -/
def pendingState : AppState :=
  { initState "t0" with isTyping := true }

/-- The initial state with a whitespace-only input buffer. -/
def blankState : AppState :=
  { initState "t0" with inputMessage := "   " }

/-- The initial state with a non-blank input buffer. -/
def readyState : AppState :=
  { initState "t0" with inputMessage := "What is in my project?" }

theorem jsTrim_falsy_iff (s : String) :
    jsFalsyString (jsTrim s) = true ↔ s.data.all isJsWhitespace = true := by
  unfold jsFalsyString jsTrim
  rw [beq_iff_eq]
  constructor
  · intro h
    have h2 : ((s.data.dropWhile isJsWhitespace).reverse.dropWhile isJsWhitespace).reverse = [] := by
      have h3 := congrArg String.data h
      simpa using h3
    rw [List.reverse_eq_nil_iff, List.dropWhile_eq_nil_iff] at h2
    rw [List.all_eq_true]
    intro x hx
    have hsplit := List.takeWhile_append_dropWhile (p := isJsWhitespace) (l := s.data)
    rw [← hsplit] at hx
    rcases List.mem_append.mp hx with h1 | h1
    · exact List.mem_takeWhile_imp h1
    · exact h2 x (List.mem_reverse.mpr h1)
  · intro h
    have h1 : s.data.dropWhile isJsWhitespace = [] := by
      rw [List.dropWhile_eq_nil_iff]
      intro x hx
      exact List.all_eq_true.mp h x hx
    rw [h1]
    rfl

theorem jsTrim_not_falsy (s : String) (h : s.data.all isJsWhitespace = false) :
    jsFalsyString (jsTrim s) = false := by
  cases hb : jsFalsyString (jsTrim s)
  · rfl
  · rw [jsTrim_falsy_iff] at hb
    rw [hb] at h
    cases h

theorem isGitUrl_eq_specIsGitRef (p : String) : isGitUrl p = specIsGitRef p := by
  unfold isGitUrl specIsGitRef
  cases strIncludes p "github.com" <;> cases strIncludes p "gitlab.com" <;>
    cases strIncludes p ".git" <;> cases jsStartsWith p "https://" <;>
    cases jsStartsWith p "http://" <;> rfl

theorem handleDirectoryChange_calls (s : AppState) (p : String)
    (tRepo : Transport RepoBody) (tDir : Transport DirBody) (now : Nat) (ts : String)
    (hp : jsFalsyString p = false) :
    (handleDirectoryChange s (some p) tRepo tDir now ts).2 =
      (if isGitUrl p then [ApiCall.validateRepo p] else [ApiCall.validateDir p]) := by
  simp only [handleDirectoryChange, hp]
  cases hg : isGitUrl p <;> simp [hg] <;> split <;> rfl

/-- C1 counterexample: on a 500 response with a parseable body and no
server-provided error field, sendPrompt propagates an exception (the
status-derived message) instead of returning a value-level result, so
the four operations do not all translate transport failure into values. -/
theorem sendPrompt_nonOk_throws_cex :
    isThrown (sendPrompt (Transport.response 500 { success := false })) = true ∧
    sendPrompt (Transport.response 500 { success := false }) =
      Except.error "HTTP error! status: 500" :=
  ⟨rfl, rfl⟩

/-- C1 (amended): validateDirectory, validateRepository and
checkBackendHealth translate every transport failure (network error,
JSON parse error, non-2xx status read as ok=false) into a value-level
result; sendPrompt instead propagates an exception exactly when the
transport fails, i.e. it returns normally iff the status is 2xx and the
body parsed. -/
theorem apiClient_transport_failures (m : String) (st : Nat) (bc : ChatBody) (bh : String) :
    validateDirectory (Transport.netError m) = { valid := false, error := some m } ∧
    validateDirectory (Transport.badJson st m) = { valid := false, error := some m } ∧
    validateRepository (Transport.netError m) = { valid := false, error := some m } ∧
    validateRepository (Transport.badJson st m) = { valid := false, error := some m } ∧
    checkBackendHealth (Transport.netError m) = { healthy := false, error := some m } ∧
    checkBackendHealth (Transport.badJson st m) = { healthy := false, error := some m } ∧
    (checkBackendHealth (Transport.response st bh)).healthy = statusOk st ∧
    isThrown (sendPrompt (Transport.netError m)) = true ∧
    isThrown (sendPrompt (Transport.badJson st m)) = true ∧
    (isThrown (sendPrompt (Transport.response st bc)) = false ↔ statusOk st = true) := by
  refine ⟨rfl, rfl, rfl, rfl, rfl, rfl, rfl, rfl, rfl, ?_⟩
  unfold sendPrompt isThrown
  cases hst : statusOk st <;> simp [hst]

set_option maxRecDepth 100000 in
/-- C2 counterexample: from a state with the pending flag set, invoking
the directory-change transition with a non-empty value still dispatches
a validation request and still changes the state, so it is not guarded
by the single-flight flag. -/
theorem changeTarget_pending_dispatch_cex :
    pendingState.isTyping = true ∧
    (handleDirectoryChange pendingState (some "/home/user/project") tRepoOk tDirOk 7 "t").2 =
      [ApiCall.validateDir "/home/user/project"] ∧
    (handleDirectoryChange pendingState (some "/home/user/project") tRepoOk tDirOk 7 "t").1 ≠
      pendingState :=
  ⟨rfl, by decide, by decide⟩

/-- C2 (amended): handleDirectoryChange performs no pending-flag check:
even when invoked while a request is in flight, any non-empty value
dispatches exactly one validation request (routed by the Git
classification); the single-flight gate for target changes exists only
as the UI disabling the Change button while pending. -/
theorem changeTarget_dispatches_while_pending (s : AppState) (p : String)
    (tRepo : Transport RepoBody) (tDir : Transport DirBody) (now : Nat) (ts : String)
    (hpending : s.isTyping = true) (hp : jsFalsyString p = false) :
    (handleDirectoryChange s (some p) tRepo tDir now ts).2 =
      (if isGitUrl p then [ApiCall.validateRepo p] else [ApiCall.validateDir p]) :=
  handleDirectoryChange_calls s p tRepo tDir now ts hp

set_option maxRecDepth 100000 in
/-- C2 (amended) witness at a concrete pending state and local path. -/
theorem changeTarget_dispatches_while_pending_witness :
    pendingState.isTyping = true ∧
    jsFalsyString "/home/user/project" = false ∧
    (handleDirectoryChange pendingState (some "/home/user/project") tRepoOk tDirOk 7 "t").2 =
      (if isGitUrl "/home/user/project" then [ApiCall.validateRepo "/home/user/project"]
       else [ApiCall.validateDir "/home/user/project"]) :=
  ⟨rfl, by decide,
   changeTarget_dispatches_while_pending pendingState "/home/user/project" tRepoOk tDirOk 7 "t"
     rfl (by decide)⟩

/-- C3: when the input text is empty or whitespace-only, or the state is
awaitingResponse (pending flag set), handleSendMessage leaves the state
untouched and dispatches no request. -/
theorem submit_blank_or_pending_noop (s : AppState) (t : Transport ChatBody)
    (now1 now2 : Nat) (ts1 ts2 : String)
    (h : s.inputMessage.data.all isJsWhitespace = true ∨ s.isTyping = true) :
    handleSendMessage s t now1 now2 ts1 ts2 = (s, []) := by
  unfold handleSendMessage
  rcases h with h | h
  · rw [(jsTrim_falsy_iff s.inputMessage).mpr h]
    simp
  · rw [h]
    simp

set_option maxRecDepth 10000 in
/-- C3 witness at a whitespace-only input buffer. -/
theorem submit_blank_or_pending_noop_witness :
    blankState.inputMessage.data.all isJsWhitespace = true ∧
    handleSendMessage blankState (Transport.netError "x") 1 2 "a" "b" = (blankState, []) :=
  ⟨by decide,
   submit_blank_or_pending_noop blankState (Transport.netError "x") 1 2 "a" "b"
     (Or.inl (by decide))⟩

/-- C4: from the idle state with a non-blank prompt, when sendPrompt
returns a body with success:true, the history grows by exactly two
messages, a user message followed by an assistant message populated
from the response fields, and the pending flag is cleared. -/
theorem submit_success_appends_two (s : AppState) (t : Transport ChatBody)
    (now1 now2 : Nat) (ts1 ts2 : String) (r : ChatBody)
    (htext : s.inputMessage.data.all isJsWhitespace = false)
    (hidle : s.isTyping = false)
    (hok : sendPrompt t = Except.ok r)
    (hsucc : r.success = true) :
    (handleSendMessage s t now1 now2 ts1 ts2).1.messages =
      s.messages ++
        [{ id := now1, type := MsgType.user, content := s.inputMessage, timestamp := ts1 },
         { id := now2 + 1, type := MsgType.ai, content := r.finalResponse, timestamp := ts2,
           functionCalls := (r.functionCalls.map (fun fcs => fcs.map FunctionCall.name)).getD [],
           tokenCount := r.tokenCounts, iterations := r.totalIterations,
           repositoryInfo := r.repositoryInfo }] ∧
    (handleSendMessage s t now1 now2 ts1 ts2).1.messages.length = s.messages.length + 2 ∧
    (handleSendMessage s t now1 now2 ts1 ts2).1.isTyping = false := by
  have hg := jsTrim_not_falsy s.inputMessage htext
  simp only [handleSendMessage, hg, hidle, hok, hsucc]
  simp [List.append_assoc]

/-- C5: from the idle state with a non-blank prompt, when sendPrompt
returns a value-level failure body with error "boom", the history grows
by exactly two messages, the user message then an error-role message
whose text contains "boom". -/
theorem submit_value_failure_appends_error (s : AppState) (t : Transport ChatBody)
    (now1 now2 : Nat) (ts1 ts2 : String) (r : ChatBody)
    (htext : s.inputMessage.data.all isJsWhitespace = false)
    (hidle : s.isTyping = false)
    (hok : sendPrompt t = Except.ok r)
    (hfail : r.success = false)
    (herr : r.error = some "boom") :
    (handleSendMessage s t now1 now2 ts1 ts2).1.messages =
      s.messages ++
        [{ id := now1, type := MsgType.user, content := s.inputMessage, timestamp := ts1 },
         { id := now2 + 1, type := MsgType.error, content := "Error: boom", timestamp := ts2 }] ∧
    strIncludes "Error: boom" "boom" = true ∧
    (handleSendMessage s t now1 now2 ts1 ts2).1.messages.length = s.messages.length + 2 := by
  have hg := jsTrim_not_falsy s.inputMessage htext
  simp only [handleSendMessage, hg, hidle, hok, hfail, herr]
  refine ⟨?_, by decide, ?_⟩ <;> simp [jsOr, List.append_assoc]

set_option maxRecDepth 100000 in
/-- C4 witness at a concrete non-blank idle state and success response. -/
theorem submit_success_appends_two_witness :
    readyState.inputMessage.data.all isJsWhitespace = false ∧
    readyState.isTyping = false ∧
    sendPrompt tChatSuccess = Except.ok chatOkBody ∧
    chatOkBody.success = true ∧
    ((handleSendMessage readyState tChatSuccess 10 20 "a" "b").1.messages =
      readyState.messages ++
        [{ id := 10, type := MsgType.user, content := readyState.inputMessage, timestamp := "a" },
         { id := 20 + 1, type := MsgType.ai, content := chatOkBody.finalResponse, timestamp := "b",
           functionCalls := (chatOkBody.functionCalls.map (fun fcs => fcs.map FunctionCall.name)).getD [],
           tokenCount := chatOkBody.tokenCounts, iterations := chatOkBody.totalIterations,
           repositoryInfo := chatOkBody.repositoryInfo }] ∧
     (handleSendMessage readyState tChatSuccess 10 20 "a" "b").1.messages.length =
       readyState.messages.length + 2 ∧
     (handleSendMessage readyState tChatSuccess 10 20 "a" "b").1.isTyping = false) :=
  ⟨by decide, rfl, rfl, rfl,
   submit_success_appends_two readyState tChatSuccess 10 20 "a" "b" chatOkBody
     (by decide) rfl rfl rfl⟩

set_option maxRecDepth 100000 in
/-- C5 witness at a concrete non-blank idle state and boom failure body. -/
theorem submit_value_failure_appends_error_witness :
    readyState.inputMessage.data.all isJsWhitespace = false ∧
    readyState.isTyping = false ∧
    sendPrompt tChatBoom = Except.ok chatBoomBody ∧
    chatBoomBody.success = false ∧
    chatBoomBody.error = some "boom" ∧
    ((handleSendMessage readyState tChatBoom 10 20 "a" "b").1.messages =
      readyState.messages ++
        [{ id := 10, type := MsgType.user, content := readyState.inputMessage, timestamp := "a" },
         { id := 20 + 1, type := MsgType.error, content := "Error: boom", timestamp := "b" }] ∧
     strIncludes "Error: boom" "boom" = true ∧
     (handleSendMessage readyState tChatBoom 10 20 "a" "b").1.messages.length =
       readyState.messages.length + 2) :=
  ⟨by decide, rfl, rfl, rfl, rfl,
   submit_value_failure_appends_error readyState tChatBoom 10 20 "a" "b" chatBoomBody
     (by decide) rfl rfl rfl rfl⟩

/-- C6: for every non-empty value, the handler classification agrees
with the spec classification (contains github.com, gitlab.com, or .git,
or starts with http:// or https://), and exactly the matching validator
is called: validateRepository for Git references, validateDirectory for
local paths, never the other. -/
theorem changeTarget_classification_routing (s : AppState) (p : String)
    (tRepo : Transport RepoBody) (tDir : Transport DirBody) (now : Nat) (ts : String)
    (hp : jsFalsyString p = false) :
    isGitUrl p = specIsGitRef p ∧
    (handleDirectoryChange s (some p) tRepo tDir now ts).2 =
      (if specIsGitRef p then [ApiCall.validateRepo p] else [ApiCall.validateDir p]) := by
  refine ⟨isGitUrl_eq_specIsGitRef p, ?_⟩
  rw [← isGitUrl_eq_specIsGitRef p]
  exact handleDirectoryChange_calls s p tRepo tDir now ts hp

set_option maxRecDepth 100000 in
/-- C6 witness at the Git URL from the spec example. -/
theorem changeTarget_classification_routing_witness :
    jsFalsyString "https://github.com/foo/bar" = false ∧
    (isGitUrl "https://github.com/foo/bar" = specIsGitRef "https://github.com/foo/bar" ∧
     (handleDirectoryChange (initState "t0") (some "https://github.com/foo/bar") tRepoOk tDirOk 7 "t").2 =
       (if specIsGitRef "https://github.com/foo/bar"
        then [ApiCall.validateRepo "https://github.com/foo/bar"]
        else [ApiCall.validateDir "https://github.com/foo/bar"])) :=
  ⟨by decide,
   changeTarget_classification_routing (initState "t0") "https://github.com/foo/bar"
     tRepoOk tDirOk 7 "t" (by decide)⟩

/-- C7: two independent guarantees, each over every state and every
transport outcome: whenever handleSendMessage passes its entry guard,
the resulting state has the pending flag cleared; and whenever
handleDirectoryChange reaches a validation call (non-empty value, from
any state whatsoever, its input buffer and pending flag unconstrained),
the resulting state has the pending flag cleared — whichever branch was
taken (success, value-level failure, or transport exception). -/
theorem controller_returns_to_idle (s sChange : AppState) (t : Transport ChatBody)
    (tRepo : Transport RepoBody) (tDir : Transport DirBody)
    (now1 now2 now : Nat) (ts1 ts2 ts : String) (p : String) :
    ((jsFalsyString (jsTrim s.inputMessage) || s.isTyping) = false →
      (handleSendMessage s t now1 now2 ts1 ts2).1.isTyping = false) ∧
    (jsFalsyString p = false →
      (handleDirectoryChange sChange (some p) tRepo tDir now ts).1.isTyping = false) := by
  constructor
  · intro hguard
    simp only [handleSendMessage, hguard]
    simp
  · intro hp
    simp only [handleDirectoryChange, hp]
    simp

set_option maxRecDepth 100000 in
/-- C7 witness: the submit conjunct at a ready state with a
network-failing chat transport, and the changeTarget conjunct at a
state with a request already in flight and a concrete local path. -/
theorem controller_returns_to_idle_witness :
    (jsFalsyString (jsTrim readyState.inputMessage) || readyState.isTyping) = false ∧
    jsFalsyString "/home/user/project" = false ∧
    (handleSendMessage readyState (Transport.netError "x") 1 2 "a" "b").1.isTyping = false ∧
    (handleDirectoryChange pendingState (some "/home/user/project") tRepoOk tDirOk 7 "t").1.isTyping = false :=
  ⟨by decide, by decide,
   (controller_returns_to_idle readyState pendingState (Transport.netError "x") tRepoOk tDirOk
     1 2 7 "a" "b" "t" "/home/user/project").1 (by decide),
   (controller_returns_to_idle readyState pendingState (Transport.netError "x") tRepoOk tDirOk
     1 2 7 "a" "b" "t" "/home/user/project").2 (by decide)⟩

/-- C8: clearError resets the session error to none and leaves every
other state component exactly as before: history, input buffer, verbose
flag, pending flag, target, and both health flags. -/
theorem clearError_frame (s : AppState) :
    (clearError s).error = none ∧
    (clearError s).messages = s.messages ∧
    (clearError s).inputMessage = s.inputMessage ∧
    (clearError s).verboseMode = s.verboseMode ∧
    (clearError s).isTyping = s.isTyping ∧
    (clearError s).workingDirectory = s.workingDirectory ∧
    (clearError s).backendHealthy = s.backendHealthy ∧
    (clearError s).backendChecking = s.backendChecking :=
  ⟨rfl, rfl, rfl, rfl, rfl, rfl, rfl, rfl⟩

/-- C10: validateDirectory and validateRepository never inspect the
status code: any response whose body parsed is returned unchanged, for
every status value; only thrown transport or parse errors are mapped to
a valid:false object carrying the message. -/
theorem validators_ignore_status (st : Nat) (bd : DirBody) (br : RepoBody) (m : String) :
    validateDirectory (Transport.response st bd) = bd ∧
    validateRepository (Transport.response st br) = br ∧
    validateDirectory (Transport.netError m) = { valid := false, error := some m } ∧
    validateDirectory (Transport.badJson st m) = { valid := false, error := some m } ∧
    validateRepository (Transport.netError m) = { valid := false, error := some m } ∧
    validateRepository (Transport.badJson st m) = { valid := false, error := some m } :=
  ⟨rfl, rfl, rfl, rfl, rfl, rfl⟩

/-- C9: the message history is append-only: each controller transition
(prompt submission in every branch, target change in every branch,
health refresh, clearError) leaves the existing history as an unchanged
prefix, at most appending new messages at the end. -/
theorem history_append_only (s : AppState) (t : Transport ChatBody)
    (newPath : Option String) (tRepo : Transport RepoBody) (tDir : Transport DirBody)
    (tHealth : Transport String) (now1 now2 now : Nat) (ts1 ts2 ts : String) :
    (∃ tail, (handleSendMessage s t now1 now2 ts1 ts2).1.messages = s.messages ++ tail) ∧
    (∃ tail, (handleDirectoryChange s newPath tRepo tDir now ts).1.messages = s.messages ++ tail) ∧
    (checkHealth s tHealth).messages = s.messages ∧
    (clearError s).messages = s.messages := by
  refine ⟨?_, ?_, ?_, rfl⟩
  · simp only [handleSendMessage]
    split
    · exact ⟨[], by simp⟩
    · cases hsp : sendPrompt t with
      | error emsg => exact ⟨_, by simp [List.append_assoc]; rfl⟩
      | ok r =>
        cases hr : r.success
        · exact ⟨_, by simp [hr, List.append_assoc]; rfl⟩
        · exact ⟨_, by simp [hr, List.append_assoc]; rfl⟩
  · cases newPath with
    | none => exact ⟨[], by simp [handleDirectoryChange]⟩
    | some p =>
      simp only [handleDirectoryChange]
      split
      · exact ⟨[], by simp⟩
      · split
        · split
          · exact ⟨_, by simp; rfl⟩
          · exact ⟨_, by simp; rfl⟩
        · split
          · exact ⟨_, by simp; rfl⟩
          · exact ⟨_, by simp; rfl⟩
  · simp only [checkHealth]
    split <;> rfl
